import Mathlib

/-!
Shallow embedding of the help-chat ticket backend's versioned-entity storage
engine and ticket domain rules, translated from the Go sources:

* `internal/models/ticket.go` — the `Ticket` entity, its enums and `Clone`
* `internal/models/user.go` — `User`, `UserRole`, `IsAdmin`, `IsAgent`
* `internal/repository/timeseries_repository.go` — the generic time-series
  store (`Update`, `Archive`, `GetCurrentByID`, `GetHistory`)
* `internal/repository/ticket_repository.go` — ticket store specialization
  (`List`, `GetStats`, `AssignToAgent`, `UpdateStatus`, `Escalate`)
* `internal/services/ticket_service.go` — domain rules (status transition
  table, deletion authorization, escalation one-shot rule)

Modelling conventions: timestamps and UUIDs are natural numbers; the ambient
environment (`Env`) carries a strictly increasing clock — each call to Go's
`time.Now()` consumes one tick — and a fresh-id counter standing for
`uuid.New()`.  Nullable columns are `Option`s.  The database table is a
`List Ticket` in insertion order; GORM's `First` with a `Where` clause is
`List.find?`, `Save` replaces the row with the matching primary key, and
`Create` appends.  Fallible operations return `Except`.
-/

namespace HelpChat

/-- Ticket status enum, from `internal/models/ticket.go` (`TicketStatus`). -/
inductive TicketStatus
  | OPEN
  | IN_PROGRESS
  | RESOLVED
  | CLOSED
deriving DecidableEq, Repr

/-- Ticket priority enum, from `internal/models/ticket.go` (`TicketPriority`). -/
inductive TicketPriority
  | LOW
  | MEDIUM
  | HIGH
  | CRITICAL
deriving DecidableEq, Repr

/-- User role enum, from `internal/models/user.go` (`UserRole`). -/
inductive UserRole
  | END_USER
  | SUPPORT_AGENT
  | ADMINISTRATOR
  | MANAGER
deriving DecidableEq, Repr

/-- The `Ticket` entity of `internal/models/ticket.go`: time-series fields
(`ID`, `CreationTime`, nullable `ExpirationTime`) followed by the business
fields.  Relationship preloads (`Category`, `AssignedAgent`, ...) are
presentation-only joins and carry no persisted ticket state, so they are not
part of the row. -/
structure Ticket where
  id : Nat
  creationTime : Nat
  expirationTime : Option Nat
  title : String
  description : String
  status : TicketStatus
  priority : TicketPriority
  categoryId : Option Nat
  assignedAgentId : Option Nat
  createdById : Nat
  escalatedAt : Option Nat
  escalatedTo : Option Nat
  resolvedAt : Option Nat
  dueDate : Option Nat
deriving DecidableEq, Repr

/-- `Ticket.IsCurrentVersion`: the expiration time is null. -/
def Ticket.isCurrentVersion (t : Ticket) : Bool :=
  t.expirationTime.isNone

/-- `Ticket.IsEscalated`: the escalation timestamp is non-null. -/
def Ticket.isEscalated (t : Ticket) : Bool :=
  t.escalatedAt.isSome

/-- `Ticket.Clone` from `internal/models/ticket.go`: a new version carrying
the same business fields, with `CreationTime = time.Now()` (the tick `now`),
`ExpirationTime = nil`, and a fresh `ID` from `uuid.New()` (`newId`). -/
def Ticket.clone (t : Ticket) (newId now : Nat) : Ticket :=
  { id := newId
    creationTime := now
    expirationTime := none
    title := t.title
    description := t.description
    status := t.status
    priority := t.priority
    categoryId := t.categoryId
    assignedAgentId := t.assignedAgentId
    createdById := t.createdById
    escalatedAt := t.escalatedAt
    escalatedTo := t.escalatedTo
    resolvedAt := t.resolvedAt
    dueDate := t.dueDate }

/-- The `User` entity of `internal/models/user.go`, restricted to the fields
the ticket domain service consults. -/
structure User where
  id : Nat
  role : UserRole
deriving DecidableEq, Repr

/-- `User.IsAdmin` from `internal/models/user.go`: administrator privileges. -/
def User.isAdmin (u : User) : Bool :=
  u.role == UserRole.ADMINISTRATOR || u.role == UserRole.MANAGER

/-- `User.IsAgent` from `internal/models/user.go`: support agent or higher. -/
def User.isAgent (u : User) : Bool :=
  u.role == UserRole.SUPPORT_AGENT || u.role == UserRole.ADMINISTRATOR
    || u.role == UserRole.MANAGER

/-- Ambient execution environment: the wall clock (each `time.Now()` call
returns the current tick and advances it) and the `uuid.New()` supply. -/
structure Env where
  clock : Nat
  nextId : Nat
deriving DecidableEq, Repr

/-- One call to `time.Now()`. -/
def Env.now (e : Env) : Nat × Env :=
  (e.clock, { e with clock := e.clock + 1 })

/-- One call to `uuid.New()`. -/
def Env.freshId (e : Env) : Nat × Env :=
  (e.nextId, { e with nextId := e.nextId + 1 })

/-- Errors surfaced by the generic time-series store. -/
inductive StoreError
  | notFound
  | mutatorFailed (msg : String)
deriving DecidableEq, Repr

/-- Errors surfaced by the ticket domain service (`ticket_service.go`). -/
inductive ServiceError
  | ticketNotFound
  | userNotFound
  | insufficientPermissions
  | canOnlyDeleteOpenTickets
  | invalidStatusTransition (fromSt toSt : TicketStatus)
  | alreadyEscalated
  | targetUserNotFound
  | targetNotManagerOrAdmin
  | storage (e : StoreError)
deriving DecidableEq, Repr

/-- `GetCurrentByID` of `timeseries_repository.go`:
`WHERE id = ? AND expiration_time IS NULL`, first match. -/
def findCurrent (rows : List Ticket) (id : Nat) : Option Ticket :=
  rows.find? (fun r => r.id == id && r.expirationTime.isNone)

/-- Stable insertion into a list sorted by `le`. -/
def insertSorted (le : Ticket → Ticket → Bool) (x : Ticket) :
    List Ticket → List Ticket
  | [] => [x]
  | y :: ys => if le x y then x :: y :: ys else y :: insertSorted le x ys

/-- Insertion sort, the model of a SQL `ORDER BY`. -/
def sortTickets (le : Ticket → Ticket → Bool) : List Ticket → List Ticket
  | [] => []
  | x :: xs => insertSorted le x (sortTickets le xs)

/-- `GetHistory` of `timeseries_repository.go`: all rows
`WHERE id = ?` ordered by `creation_time ASC`.  (Because `id` is the
per-version primary key, rows never share it — §9 of the design notes.) -/
def getHistory (rows : List Ticket) (id : Nat) : List Ticket :=
  sortTickets (fun a b => decide (a.creationTime ≤ b.creationTime))
    (rows.filter (fun r => r.id == id))

/-- `TimeSeriesRepositoryImpl.Update` of `timeseries_repository.go`:
look up the current version, `Clone()` it (which samples `time.Now()` for the
clone's creation time and `uuid.New()` for its id), apply the mutator, then
sample `time.Now()` again for the old version's expiration, save the expired
old row and insert the new row.  Any failure rolls the transaction back,
leaving the rows exactly as they were. -/
def tsUpdate (rows : List Ticket) (env : Env) (id : Nat)
    (updates : Ticket → Except String Ticket) :
    Except StoreError Ticket × List Ticket × Env :=
  match findCurrent rows id with
  | none => (Except.error StoreError.notFound, rows, env)
  | some current =>
    let p1 := env.now
    let p2 := p1.2.freshId
    let cloned := current.clone p2.1 p1.1
    match updates cloned with
    | Except.error msg => (Except.error (StoreError.mutatorFailed msg), rows, p2.2)
    | Except.ok cloned' =>
      let p3 := p2.2.now
      let expired := { current with expirationTime := some p3.1 }
      let newRows :=
        (rows.map fun r => if r.id == current.id then expired else r) ++ [cloned']
      (Except.ok cloned', newRows, p3.2)

/-- `TimeSeriesRepositoryImpl.Archive` of `timeseries_repository.go`: expire
the current version in place, inserting no replacement. -/
def tsArchive (rows : List Ticket) (env : Env) (id : Nat) :
    Except StoreError Unit × List Ticket × Env :=
  match findCurrent rows id with
  | none => (Except.error StoreError.notFound, rows, env)
  | some current =>
    let p := env.now
    let expired := { current with expirationTime := some p.1 }
    (Except.ok (), rows.map (fun r => if r.id == current.id then expired else r), p.2)

/-- `ticketRepository.AssignToAgent` of `ticket_repository.go`: a direct
in-place column update, `UPDATE tickets SET assigned_agent_id = ? WHERE id = ?`.
It does not go through the time-series `Update` protocol. -/
def repoAssignToAgent (rows : List Ticket) (ticketID agentID : Nat) : List Ticket :=
  rows.map fun r =>
    if r.id == ticketID then { r with assignedAgentId := some agentID } else r

/-- `ticketRepository.UpdateStatus` of `ticket_repository.go`: a direct
in-place column update setting `status`, plus `resolved_at = time.Now()` when
the new status is RESOLVED or CLOSED.  `time.Now()` is only sampled in that
branch.  It does not go through the time-series `Update` protocol. -/
def repoUpdateStatus (rows : List Ticket) (env : Env) (ticketID : Nat)
    (status : TicketStatus) : List Ticket × Env :=
  if status == TicketStatus.RESOLVED || status == TicketStatus.CLOSED then
    let p := env.now
    (rows.map fun r =>
      if r.id == ticketID then { r with status := status, resolvedAt := some p.1 }
      else r, p.2)
  else
    (rows.map fun r => if r.id == ticketID then { r with status := status } else r,
      env)

/-- `ticketRepository.Escalate` of `ticket_repository.go`: a direct in-place
column update setting `escalated_to` and `escalated_at = time.Now()`.  It does
not go through the time-series `Update` protocol. -/
def repoEscalate (rows : List Ticket) (env : Env) (ticketID escalatedTo : Nat) :
    List Ticket × Env :=
  let p := env.now
  (rows.map fun r =>
    if r.id == ticketID then
      { r with escalatedTo := some escalatedTo, escalatedAt := some p.1 }
    else r, p.2)

/-- `TicketFilter` of `internal/models` (request model shared with the
repository's `applyFilters`). -/
structure TicketFilter where
  status : Option TicketStatus := none
  priority : Option TicketPriority := none
  categoryId : Option Nat := none
  assignedTo : Option Nat := none
  createdBy : Option Nat := none
  isEscalated : Option Bool := none
  isOverdue : Option Bool := none
  dateFrom : Option Nat := none
  dateTo : Option Nat := none
  search : String := ""
deriving DecidableEq, Repr

/-- `TicketSort` of `internal/models`: a sort field name (validated against
`created_at updated_at priority status title`) and a direction (`asc`/`desc`). -/
structure TicketSort where
  field : String
  direction : String
deriving DecidableEq, Repr

/-- `TicketQuery` of `internal/models`.  The Go `Page`/`PageSize` are machine
ints; the service layer guarantees both are at least 1 before the repository
runs, so they are naturals here. -/
structure TicketQuery where
  filter : Option TicketFilter := none
  sort : Option TicketSort := none
  page : Nat
  pageSize : Nat
deriving DecidableEq, Repr

/-- `TicketListResponse` of `internal/models`. -/
structure TicketListResponse where
  tickets : List Ticket
  total : Nat
  page : Nat
  pageSize : Nat
  totalPages : Nat
deriving DecidableEq, Repr

/-- `TicketStats` of `internal/models`. -/
structure TicketStats where
  totalTickets : Nat
  openTickets : Nat
  inProgressTickets : Nat
  resolvedTickets : Nat
  closedTickets : Nat
  escalatedTickets : Nat
  overdueTickets : Nat
deriving DecidableEq, Repr

/-- SQL `LIKE '%needle%'` over a text column: substring containment. -/
def likeContains (needle hay : String) : Bool :=
  decide (needle.toList <:+: hay.toList)

/-- One ticket row against `ticketRepository.applyFilters` of
`ticket_repository.go`: every present filter is ANDed.  SQL three-valued
logic makes `NULL = x` false, `NULL < x` false, and `due_date IS NULL OR
due_date >= now` true for null due dates, exactly as each branch below. -/
def matchesFilter (f : TicketFilter) (now : Nat) (r : Ticket) : Bool :=
  (match f.status with | none => true | some s => r.status == s) &&
  (match f.priority with | none => true | some p => r.priority == p) &&
  (match f.categoryId with | none => true | some c => r.categoryId == some c) &&
  (match f.assignedTo with | none => true | some a => r.assignedAgentId == some a) &&
  (match f.createdBy with | none => true | some c => r.createdById == c) &&
  (match f.isEscalated with
    | none => true
    | some b => if b then r.escalatedAt.isSome else r.escalatedAt.isNone) &&
  (match f.isOverdue with
    | none => true
    | some b =>
      if b then (match r.dueDate with | some d => decide (d < now) | none => false)
      else (match r.dueDate with | some d => decide (now ≤ d) | none => true)) &&
  (match f.dateFrom with | none => true | some d => decide (d ≤ r.creationTime)) &&
  (match f.dateTo with | none => true | some d => decide (r.creationTime ≤ d)) &&
  (f.search == "" || (likeContains f.search r.title || likeContains f.search r.description))

/-- `ticketRepository.applyFilters`: a nil filter leaves the query untouched.
Note that no branch — and no caller — ever adds `expiration_time IS NULL`. -/
def applyFilters (rows : List Ticket) (filter : Option TicketFilter) (now : Nat) :
    List Ticket :=
  match filter with
  | none => rows
  | some f => rows.filter (matchesFilter f now)

/-- The string stored for a status in the `status` varchar column. -/
def TicketStatus.dbString : TicketStatus → String
  | .OPEN => "OPEN"
  | .IN_PROGRESS => "IN_PROGRESS"
  | .RESOLVED => "RESOLVED"
  | .CLOSED => "CLOSED"

/-- The string stored for a priority in the `priority` varchar column. -/
def TicketPriority.dbString : TicketPriority → String
  | .LOW => "LOW"
  | .MEDIUM => "MEDIUM"
  | .HIGH => "HIGH"
  | .CRITICAL => "CRITICAL"

/-- Ascending comparison for one `ORDER BY` column.  `status`, `priority` and
`title` are varchar columns, so they compare as strings; the two timestamp
field names fall back to the row's creation time (the tickets table's
creation-time column). -/
def fieldLE (field : String) (a b : Ticket) : Bool :=
  if field == "priority" then decide (a.priority.dbString ≤ b.priority.dbString)
  else if field == "status" then decide (a.status.dbString ≤ b.status.dbString)
  else if field == "title" then decide (a.title ≤ b.title)
  else decide (a.creationTime ≤ b.creationTime)

/-- The sort step of `ticketRepository.List`: `ORDER BY <field> <DIRECTION>`
when a sort is supplied, `ORDER BY creation_time DESC` otherwise. -/
def sortStep (sort : Option TicketSort) (rows : List Ticket) : List Ticket :=
  match sort with
  | none => sortTickets (fun a b => decide (b.creationTime ≤ a.creationTime)) rows
  | some s =>
    if s.direction.toUpper == "DESC" then
      sortTickets (fun a b => fieldLE s.field b a) rows
    else
      sortTickets (fun a b => fieldLE s.field a b) rows

/-- `ticketRepository.List` of `ticket_repository.go`: apply the filters,
count the matches (pre-pagination), sort, then `OFFSET (page-1)*pageSize
LIMIT pageSize`; `totalPages = (total + pageSize - 1) / pageSize` in integer
division.  No `expiration_time IS NULL` restriction is applied anywhere. -/
def repoList (rows : List Ticket) (query : TicketQuery) (now : Nat) :
    TicketListResponse :=
  let filtered := applyFilters rows query.filter now
  let total := filtered.length
  let sorted := sortStep query.sort filtered
  let offset := (query.page - 1) * query.pageSize
  { tickets := (sorted.drop offset).take query.pageSize
    total := total
    page := query.page
    pageSize := query.pageSize
    totalPages := (total + query.pageSize - 1) / query.pageSize }

/-- `ticketRepository.GetStats` of `ticket_repository.go`: per-status counts,
a total count, an `escalated_at IS NOT NULL` count and a `due_date < now`
count — all plain `COUNT`s over the tickets table, with no
`expiration_time IS NULL` restriction. -/
def getStats (rows : List Ticket) (now : Nat) : TicketStats :=
  { totalTickets := rows.length
    openTickets := (rows.filter fun r => r.status == TicketStatus.OPEN).length
    inProgressTickets :=
      (rows.filter fun r => r.status == TicketStatus.IN_PROGRESS).length
    resolvedTickets := (rows.filter fun r => r.status == TicketStatus.RESOLVED).length
    closedTickets := (rows.filter fun r => r.status == TicketStatus.CLOSED).length
    escalatedTickets := (rows.filter fun r => r.escalatedAt.isSome).length
    overdueTickets :=
      (rows.filter fun r =>
        match r.dueDate with | some d => decide (d < now) | none => false).length }

/-- `userRepository.GetByID`: `WHERE id = ?`, first match. -/
def findUser (users : List User) (id : Nat) : Option User :=
  users.find? (fun u => u.id == id)

/-- `TicketService.isValidStatusTransition` of `ticket_service.go`: the
transition map, keyed by the current status, listing the statuses reachable
from it; a transition is valid when the target appears in the list. -/
def isValidStatusTransition (fromSt toSt : TicketStatus) : Bool :=
  let allowed : List TicketStatus :=
    match fromSt with
    | .OPEN => [.IN_PROGRESS, .RESOLVED, .CLOSED]
    | .IN_PROGRESS => [.OPEN, .RESOLVED, .CLOSED]
    | .RESOLVED => [.IN_PROGRESS, .CLOSED]
    | .CLOSED => [.OPEN, .IN_PROGRESS]
  allowed.contains toSt

/-- `TicketService.UpdateTicketStatus` of `ticket_service.go`: fetch the
current version, validate the transition against the table, and only then
invoke the store's `UpdateStatus`; an invalid transition returns before any
store write. -/
def updateTicketStatus (rows : List Ticket) (env : Env) (ticketID : Nat)
    (reqStatus : TicketStatus) : Except ServiceError Unit × List Ticket × Env :=
  match findCurrent rows ticketID with
  | none => (Except.error ServiceError.ticketNotFound, rows, env)
  | some ticket =>
    if isValidStatusTransition ticket.status reqStatus then
      let p := repoUpdateStatus rows env ticketID reqStatus
      (Except.ok (), p.1, p.2)
    else
      (Except.error (ServiceError.invalidStatusTransition ticket.status reqStatus),
        rows, env)

/-- `TicketService.DeleteTicket` of `ticket_service.go`: the ticket must
exist, the requesting user must exist and satisfy `IsAdmin`, and the current
status must be OPEN; only then is the store's `Delete` (archive) invoked. -/
def deleteTicket (rows : List Ticket) (users : List User) (env : Env)
    (ticketID userID : Nat) : Except ServiceError Unit × List Ticket × Env :=
  match findCurrent rows ticketID with
  | none => (Except.error ServiceError.ticketNotFound, rows, env)
  | some ticket =>
    match findUser users userID with
    | none => (Except.error ServiceError.userNotFound, rows, env)
    | some user =>
      if !user.isAdmin then
        (Except.error ServiceError.insufficientPermissions, rows, env)
      else if !(ticket.status == TicketStatus.OPEN) then
        (Except.error ServiceError.canOnlyDeleteOpenTickets, rows, env)
      else
        match tsArchive rows env ticketID with
        | (Except.ok _, rows2, env2) => (Except.ok (), rows2, env2)
        | (Except.error e, rows2, env2) =>
          (Except.error (ServiceError.storage e), rows2, env2)

/-- `TicketService.EscalateTicket` of `ticket_service.go`: the ticket must
exist and not already be escalated, the target user must exist and satisfy
`IsAdmin` (manager or administrator); only then is the store's `Escalate`
invoked. -/
def escalateTicket (rows : List Ticket) (users : List User) (env : Env)
    (ticketID escalatedTo : Nat) : Except ServiceError Unit × List Ticket × Env :=
  match findCurrent rows ticketID with
  | none => (Except.error ServiceError.ticketNotFound, rows, env)
  | some ticket =>
    if ticket.isEscalated then
      (Except.error ServiceError.alreadyEscalated, rows, env)
    else
      match findUser users escalatedTo with
      | none => (Except.error ServiceError.targetUserNotFound, rows, env)
      | some target =>
        if !target.isAdmin then
          (Except.error ServiceError.targetNotManagerOrAdmin, rows, env)
        else
          let p := repoEscalate rows env ticketID escalatedTo
          (Except.ok (), p.1, p.2)

/-- The status-transition table exactly as the specification writes it:
OPEN→{IN_PROGRESS,RESOLVED,CLOSED}, IN_PROGRESS→{OPEN,RESOLVED,CLOSED},
RESOLVED→{IN_PROGRESS,CLOSED}, CLOSED→{OPEN,IN_PROGRESS}. -/
def specTransitionTable : List (TicketStatus × TicketStatus) :=
  [(.OPEN, .IN_PROGRESS), (.OPEN, .RESOLVED), (.OPEN, .CLOSED),
   (.IN_PROGRESS, .OPEN), (.IN_PROGRESS, .RESOLVED), (.IN_PROGRESS, .CLOSED),
   (.RESOLVED, .IN_PROGRESS), (.RESOLVED, .CLOSED),
   (.CLOSED, .OPEN), (.CLOSED, .IN_PROGRESS)]

/-- Every row id was issued by the environment's id supply: ids already in
the store are strictly below the next fresh id. -/
def idInvariant (rows : List Ticket) (env : Env) : Prop :=
  ∀ r ∈ rows, r.id < env.nextId

/-- Every row's creation time was sampled from an earlier clock tick. -/
def clockInvariant (rows : List Ticket) (env : Env) : Prop :=
  ∀ r ∈ rows, r.creationTime ≤ env.clock

/-- A sample current ticket row used by concrete evaluations. -/
def wTicket : Ticket :=
  { id := 0
    creationTime := 0
    expirationTime := none
    title := "printer on fire"
    description := "smoke everywhere"
    status := TicketStatus.OPEN
    priority := TicketPriority.MEDIUM
    categoryId := none
    assignedAgentId := none
    createdById := 7
    escalatedAt := none
    escalatedTo := none
    resolvedAt := none
    dueDate := none }

/-- A sample mutator failure message. -/
def boomMsg : String := "boom"

/-- A row returned by the current-version lookup belongs to the store. -/
lemma findCurrent_mem {rows : List Ticket} {id : Nat} {t : Ticket}
    (h : findCurrent rows id = some t) : t ∈ rows :=
  List.mem_of_find?_eq_some h

/-- A row returned by the current-version lookup carries the requested id and
a null expiration time. -/
lemma findCurrent_props {rows : List Ticket} {id : Nat} {t : Ticket}
    (h : findCurrent rows id = some t) : t.id = id ∧ t.expirationTime = none := by
  have hp := List.find?_some h
  simp only [Bool.and_eq_true, beq_iff_eq, Option.isNone_iff_eq_none] at hp
  exact hp

/-- Insertion keeps every element and adds one. -/
lemma length_insertSorted (le : Ticket → Ticket → Bool) (x : Ticket)
    (l : List Ticket) : (insertSorted le x l).length = l.length + 1 := by
  induction l with
  | nil => rfl
  | cons y ys ih =>
    simp only [insertSorted]
    split
    · simp
    · simp [ih]

/-- Sorting preserves length. -/
lemma length_sortTickets (le : Ticket → Ticket → Bool) (l : List Ticket) :
    (sortTickets le l).length = l.length := by
  induction l with
  | nil => rfl
  | cons x xs ih => simp [sortTickets, length_insertSorted, ih]

/-- C3.  If the mutator handed to the time-series `update` fails, the
operation reports the mutator's error and the transaction rolls back: the
row list is exactly the pre-call one, so the pre-call current version is
still present and still current, and no new row was inserted. -/
theorem update_mutator_error_rolls_back
    (rows : List Ticket) (env : Env) (id : Nat)
    (updates : Ticket → Except String Ticket) (t : Ticket) (msg : String)
    (hfind : findCurrent rows id = some t)
    (hmut : updates (t.clone env.nextId env.clock) = Except.error msg) :
    (tsUpdate rows env id updates).1 = Except.error (StoreError.mutatorFailed msg) ∧
    (tsUpdate rows env id updates).2.1 = rows ∧
    t ∈ rows ∧ t.expirationTime = none := by
  refine ⟨?_, ?_, findCurrent_mem hfind, (findCurrent_props hfind).2⟩ <;>
    simp [tsUpdate, hfind, Env.now, Env.freshId, hmut]

/-- C3 witness: a concrete store, environment and failing mutator. -/
theorem update_mutator_error_rolls_back_witness :
    (tsUpdate [wTicket] (Env.mk 5 1) 0 (fun _ => Except.error boomMsg)).1 =
      Except.error (StoreError.mutatorFailed boomMsg) ∧
    (tsUpdate [wTicket] (Env.mk 5 1) 0 (fun _ => Except.error boomMsg)).2.1 =
      [wTicket] ∧
    wTicket ∈ [wTicket] ∧ wTicket.expirationTime = none :=
  update_mutator_error_rolls_back [wTicket] (Env.mk 5 1) 0
    (fun _ => Except.error boomMsg) wTicket boomMsg (by decide) rfl

/-- A sample already-escalated current ticket row. -/
def wEscalatedTicket : Ticket :=
  { wTicket with escalatedAt := some 2, escalatedTo := some 50 }

/-- C7.  Escalation is one-shot: when the ticket's current version carries a
non-null escalation timestamp, `EscalateTicket` fails with the
already-escalated error before any store write — the rows and the
environment are untouched, so the existing escalation timestamp and target
are unchanged and no new version is written. -/
theorem escalate_already_escalated_fails
    (rows : List Ticket) (users : List User) (env : Env)
    (ticketID target : Nat) (t : Ticket) (ts : Nat)
    (hfind : findCurrent rows ticketID = some t)
    (hesc : t.escalatedAt = some ts) :
    (escalateTicket rows users env ticketID target).1 =
      Except.error ServiceError.alreadyEscalated ∧
    (escalateTicket rows users env ticketID target).2.1 = rows ∧
    (escalateTicket rows users env ticketID target).2.2 = env ∧
    t ∈ rows := by
  refine ⟨?_, ?_, ?_, findCurrent_mem hfind⟩ <;>
    simp [escalateTicket, hfind, Ticket.isEscalated, hesc]

/-- C7 witness: escalating a concrete already-escalated ticket. -/
theorem escalate_already_escalated_fails_witness :
    (escalateTicket [wEscalatedTicket] [] (Env.mk 5 1) 0 50).1 =
      Except.error ServiceError.alreadyEscalated ∧
    (escalateTicket [wEscalatedTicket] [] (Env.mk 5 1) 0 50).2.1 =
      [wEscalatedTicket] ∧
    (escalateTicket [wEscalatedTicket] [] (Env.mk 5 1) 0 50).2.2 = Env.mk 5 1 ∧
    wEscalatedTicket ∈ [wEscalatedTicket] :=
  escalate_already_escalated_fails [wEscalatedTicket] [] (Env.mk 5 1) 0 50
    wEscalatedTicket 2 rfl rfl

/-- The Go transition map agrees with the specification's table. -/
lemma isValidStatusTransition_iff_mem (a b : TicketStatus) :
    isValidStatusTransition a b = true ↔ (a, b) ∈ specTransitionTable := by
  cases a <;> cases b <;> decide

/-- C4.  For a ticket with a current version, `UpdateTicketStatus` succeeds
exactly when the pair (current status, requested status) is in the
specification's transition table; any other pair fails with the
invalid-transition error before the store update is invoked, leaving rows and
environment unchanged, so no version is written.  In particular
CLOSED→RESOLVED is rejected and CLOSED→OPEN is accepted. -/
theorem update_status_transition_table
    (rows : List Ticket) (env : Env) (ticketID : Nat) (t : Ticket)
    (newStatus : TicketStatus)
    (hfind : findCurrent rows ticketID = some t) :
    ((updateTicketStatus rows env ticketID newStatus).1 = Except.ok () ↔
      (t.status, newStatus) ∈ specTransitionTable) ∧
    ((t.status, newStatus) ∉ specTransitionTable →
      (updateTicketStatus rows env ticketID newStatus).1 =
        Except.error (ServiceError.invalidStatusTransition t.status newStatus) ∧
      (updateTicketStatus rows env ticketID newStatus).2.1 = rows ∧
      (updateTicketStatus rows env ticketID newStatus).2.2 = env) ∧
    isValidStatusTransition TicketStatus.CLOSED TicketStatus.RESOLVED = false ∧
    isValidStatusTransition TicketStatus.CLOSED TicketStatus.OPEN = true := by
  cases hval : isValidStatusTransition t.status newStatus with
  | true =>
    have hmem := (isValidStatusTransition_iff_mem t.status newStatus).1 hval
    refine ⟨?_, fun hnot => absurd hmem hnot, by decide, by decide⟩
    simp [updateTicketStatus, hfind, hval, hmem]
  | false =>
    have hmem : (t.status, newStatus) ∉ specTransitionTable := by
      intro hm
      have := (isValidStatusTransition_iff_mem t.status newStatus).2 hm
      simp [hval] at this
    refine ⟨?_, fun _ => ?_, by decide, by decide⟩
    · simp [updateTicketStatus, hfind, hval, hmem]
    · refine ⟨?_, ?_, ?_⟩ <;> simp [updateTicketStatus, hfind, hval]

/-- C4 witness: a concrete OPEN ticket and a concrete requested status. -/
theorem update_status_transition_table_witness :
    ((updateTicketStatus [wTicket] (Env.mk 5 1) 0 TicketStatus.IN_PROGRESS).1 =
        Except.ok () ↔
      (wTicket.status, TicketStatus.IN_PROGRESS) ∈ specTransitionTable) ∧
    ((wTicket.status, TicketStatus.IN_PROGRESS) ∉ specTransitionTable →
      (updateTicketStatus [wTicket] (Env.mk 5 1) 0 TicketStatus.IN_PROGRESS).1 =
        Except.error
          (ServiceError.invalidStatusTransition wTicket.status
            TicketStatus.IN_PROGRESS) ∧
      (updateTicketStatus [wTicket] (Env.mk 5 1) 0 TicketStatus.IN_PROGRESS).2.1 =
        [wTicket] ∧
      (updateTicketStatus [wTicket] (Env.mk 5 1) 0 TicketStatus.IN_PROGRESS).2.2 =
        Env.mk 5 1) ∧
    isValidStatusTransition TicketStatus.CLOSED TicketStatus.RESOLVED = false ∧
    isValidStatusTransition TicketStatus.CLOSED TicketStatus.OPEN = true :=
  update_status_transition_table [wTicket] (Env.mk 5 1) 0 wTicket
    TicketStatus.IN_PROGRESS rfl

/-- C6.  `Clone` carries every business field forward unchanged, takes the
supplied fresh id and resets the expiration time to null; consequently a
time-series update whose mutator changes only the priority yields a new
version agreeing with the old current version on every other business field,
with a fresh id (distinct from the old version's under the id-supply
invariant) and a null expiration time. -/
theorem clone_preserves_business_fields
    (rows : List Ticket) (env : Env) (id : Nat) (t : Ticket)
    (hfind : findCurrent rows id = some t)
    (hids : idInvariant rows env) :
    (∀ (u : Ticket) (newId now : Nat),
      (u.clone newId now).title = u.title ∧
      (u.clone newId now).description = u.description ∧
      (u.clone newId now).status = u.status ∧
      (u.clone newId now).priority = u.priority ∧
      (u.clone newId now).categoryId = u.categoryId ∧
      (u.clone newId now).assignedAgentId = u.assignedAgentId ∧
      (u.clone newId now).createdById = u.createdById ∧
      (u.clone newId now).escalatedAt = u.escalatedAt ∧
      (u.clone newId now).escalatedTo = u.escalatedTo ∧
      (u.clone newId now).resolvedAt = u.resolvedAt ∧
      (u.clone newId now).dueDate = u.dueDate ∧
      (u.clone newId now).id = newId ∧
      (u.clone newId now).expirationTime = none) ∧
    ∃ v, (tsUpdate rows env id
            (fun c => Except.ok { c with priority := TicketPriority.HIGH })).1 =
          Except.ok v ∧
      v.title = t.title ∧ v.description = t.description ∧ v.status = t.status ∧
      v.priority = TicketPriority.HIGH ∧ v.categoryId = t.categoryId ∧
      v.assignedAgentId = t.assignedAgentId ∧ v.createdById = t.createdById ∧
      v.escalatedAt = t.escalatedAt ∧ v.escalatedTo = t.escalatedTo ∧
      v.resolvedAt = t.resolvedAt ∧ v.dueDate = t.dueDate ∧
      v.id ≠ t.id ∧ v.expirationTime = none := by
  constructor
  · exact fun u newId now =>
      ⟨rfl, rfl, rfl, rfl, rfl, rfl, rfl, rfl, rfl, rfl, rfl, rfl, rfl⟩
  · refine ⟨{ t.clone env.nextId env.clock with priority := TicketPriority.HIGH },
      ?_, rfl, rfl, rfl, rfl, rfl, rfl, rfl, rfl, rfl, rfl, rfl, ?_, rfl⟩
    · simp [tsUpdate, hfind, Env.now, Env.freshId]
    · exact Nat.ne_of_gt (hids t (findCurrent_mem hfind))

/-- C6 witness: a concrete priority-only update. -/
theorem clone_preserves_business_fields_witness :
    ((∀ (u : Ticket) (newId now : Nat),
      (u.clone newId now).title = u.title ∧
      (u.clone newId now).description = u.description ∧
      (u.clone newId now).status = u.status ∧
      (u.clone newId now).priority = u.priority ∧
      (u.clone newId now).categoryId = u.categoryId ∧
      (u.clone newId now).assignedAgentId = u.assignedAgentId ∧
      (u.clone newId now).createdById = u.createdById ∧
      (u.clone newId now).escalatedAt = u.escalatedAt ∧
      (u.clone newId now).escalatedTo = u.escalatedTo ∧
      (u.clone newId now).resolvedAt = u.resolvedAt ∧
      (u.clone newId now).dueDate = u.dueDate ∧
      (u.clone newId now).id = newId ∧
      (u.clone newId now).expirationTime = none) ∧
    ∃ v, (tsUpdate [wTicket] (Env.mk 5 1) 0
            (fun c => Except.ok { c with priority := TicketPriority.HIGH })).1 =
          Except.ok v ∧
      v.title = wTicket.title ∧ v.description = wTicket.description ∧
      v.status = wTicket.status ∧
      v.priority = TicketPriority.HIGH ∧ v.categoryId = wTicket.categoryId ∧
      v.assignedAgentId = wTicket.assignedAgentId ∧
      v.createdById = wTicket.createdById ∧
      v.escalatedAt = wTicket.escalatedAt ∧ v.escalatedTo = wTicket.escalatedTo ∧
      v.resolvedAt = wTicket.resolvedAt ∧ v.dueDate = wTicket.dueDate ∧
      v.id ≠ wTicket.id ∧ v.expirationTime = none) :=
  clone_preserves_business_fields [wTicket] (Env.mk 5 1) 0 wTicket rfl
    (by intro r hr; cases hr with
        | head => decide
        | tail a b => cases b)

/-- C8.  On every legal status change, the store's `UpdateStatus` stamps
`resolved_at` with the current time exactly when the new status is RESOLVED
or CLOSED; on every other legal transition (reopening included) the updated
row keeps the old `resolved_at` — it is never cleared. -/
theorem update_status_resolved_at_stamping
    (rows : List Ticket) (env : Env) (ticketID : Nat) (t : Ticket)
    (newStatus : TicketStatus)
    (hfind : findCurrent rows ticketID = some t)
    (hvalid : isValidStatusTransition t.status newStatus = true) :
    (updateTicketStatus rows env ticketID newStatus).1 = Except.ok () ∧
    ((newStatus = TicketStatus.RESOLVED ∨ newStatus = TicketStatus.CLOSED) →
      { t with status := newStatus, resolvedAt := some env.clock } ∈
        (updateTicketStatus rows env ticketID newStatus).2.1) ∧
    ((newStatus ≠ TicketStatus.RESOLVED ∧ newStatus ≠ TicketStatus.CLOSED) →
      { t with status := newStatus } ∈
        (updateTicketStatus rows env ticketID newStatus).2.1) := by
  have hmem := findCurrent_mem hfind
  have hid : (t.id == ticketID) = true := by
    simp [(findCurrent_props hfind).1]
  refine ⟨by simp [updateTicketStatus, hfind, hvalid], ?_, ?_⟩
  · intro hrc
    have hb : (newStatus == TicketStatus.RESOLVED
        || newStatus == TicketStatus.CLOSED) = true := by
      rcases hrc with h | h <;> simp [h]
    simp only [updateTicketStatus, hfind, hvalid, if_true, repoUpdateStatus, hb,
      Env.now]
    simpa [hid] using
      List.mem_map_of_mem (fun r =>
        if r.id == ticketID then
          { r with status := newStatus, resolvedAt := some env.clock }
        else r) hmem
  · intro hnrc
    have hb : (newStatus == TicketStatus.RESOLVED
        || newStatus == TicketStatus.CLOSED) = false := by
      simp [hnrc.1, hnrc.2]
    simp only [updateTicketStatus, hfind, hvalid, if_true, repoUpdateStatus, hb,
      Bool.false_eq_true, if_false]
    simpa [hid] using
      List.mem_map_of_mem (fun r =>
        if r.id == ticketID then { r with status := newStatus } else r) hmem

/-- A sample closed current ticket that was resolved at tick 3. -/
def wClosedTicket : Ticket :=
  { wTicket with status := TicketStatus.CLOSED, resolvedAt := some 3 }

/-- C8 witness: reopening a concrete CLOSED ticket to OPEN keeps its old
`resolved_at` value. -/
theorem update_status_resolved_at_stamping_witness :
    (updateTicketStatus [wClosedTicket] (Env.mk 5 1) 0 TicketStatus.OPEN).1 =
      Except.ok () ∧
    ((TicketStatus.OPEN = TicketStatus.RESOLVED ∨
        TicketStatus.OPEN = TicketStatus.CLOSED) →
      { wClosedTicket with status := TicketStatus.OPEN, resolvedAt := some 5 } ∈
        (updateTicketStatus [wClosedTicket] (Env.mk 5 1) 0 TicketStatus.OPEN).2.1) ∧
    ((TicketStatus.OPEN ≠ TicketStatus.RESOLVED ∧
        TicketStatus.OPEN ≠ TicketStatus.CLOSED) →
      { wClosedTicket with status := TicketStatus.OPEN } ∈
        (updateTicketStatus [wClosedTicket] (Env.mk 5 1) 0 TicketStatus.OPEN).2.1) :=
  update_status_resolved_at_stamping [wClosedTicket] (Env.mk 5 1) 0 wClosedTicket
    TicketStatus.OPEN rfl rfl

/-- The sort step of `List` permutes only; it never changes the row count. -/
lemma length_sortStep (sort : Option TicketSort) (l : List Ticket) :
    (sortStep sort l).length = l.length := by
  cases sort with
  | none => exact length_sortTickets _ _
  | some s =>
    simp only [sortStep]
    split <;> exact length_sortTickets _ _

/-- C9.  For every list query with page ≥ 1 and page size ≥ 1: the reported
total is the match count before pagination, the reported page count is the
ceiling of total / pageSize, and the returned page is the matching rows (in
query order) after skipping (page−1)·pageSize of them, at most pageSize
rows. -/
theorem list_pagination_correct
    (rows : List Ticket) (query : TicketQuery) (now : Nat)
    (_hpage : 1 ≤ query.page) (_hsize : 1 ≤ query.pageSize) :
    (repoList rows query now).total = (applyFilters rows query.filter now).length ∧
    (repoList rows query now).totalPages =
      (applyFilters rows query.filter now).length ⌈/⌉ query.pageSize ∧
    (repoList rows query now).tickets =
      ((sortStep query.sort (applyFilters rows query.filter now)).drop
        ((query.page - 1) * query.pageSize)).take query.pageSize ∧
    (repoList rows query now).tickets.length ≤ query.pageSize ∧
    (sortStep query.sort (applyFilters rows query.filter now)).length =
      (applyFilters rows query.filter now).length := by
  refine ⟨rfl, ?_, rfl, ?_, length_sortStep _ _⟩
  · simp [repoList, Nat.ceilDiv_eq_add_pred_div]
  · simp [repoList]

/-- Twenty-five current tickets with distinct ids and creation times. -/
def wManyTickets : List Ticket :=
  (List.range 25).map (fun n => { wTicket with id := n, creationTime := n })

/-- Page 3 of size 10, no filter, default sort. -/
def wPageQuery : TicketQuery :=
  { filter := none, sort := none, page := 3, pageSize := 10 }

/-- C9 witness: 25 matching tickets with page size 10 give totalPages = 3,
and page 3 holds exactly 5 tickets. -/
theorem list_pagination_correct_witness :
    ((repoList wManyTickets wPageQuery 0).total =
        (applyFilters wManyTickets wPageQuery.filter 0).length ∧
      (repoList wManyTickets wPageQuery 0).totalPages =
        (applyFilters wManyTickets wPageQuery.filter 0).length ⌈/⌉
          wPageQuery.pageSize ∧
      (repoList wManyTickets wPageQuery 0).tickets =
        ((sortStep wPageQuery.sort
            (applyFilters wManyTickets wPageQuery.filter 0)).drop
          ((wPageQuery.page - 1) * wPageQuery.pageSize)).take wPageQuery.pageSize ∧
      (repoList wManyTickets wPageQuery 0).tickets.length ≤ wPageQuery.pageSize ∧
      (sortStep wPageQuery.sort
          (applyFilters wManyTickets wPageQuery.filter 0)).length =
        (applyFilters wManyTickets wPageQuery.filter 0).length) ∧
    (repoList wManyTickets wPageQuery 0).total = 25 ∧
    (repoList wManyTickets wPageQuery 0).totalPages = 3 ∧
    (repoList wManyTickets wPageQuery 0).tickets.length = 5 :=
  ⟨list_pagination_correct wManyTickets wPageQuery 0 (by decide) (by decide),
    by decide, by decide, by decide⟩

/-- A sample manager and a sample support agent. -/
def wManagerUser : User := { id := 50, role := UserRole.MANAGER }

/-- A sample support agent. -/
def wAgentUser : User := { id := 60, role := UserRole.SUPPORT_AGENT }

/-- C10.  `IsAdmin` holds exactly for the ADMINISTRATOR and MANAGER roles;
consequently a manager can delete an open ticket and can be an escalation
target, while a support agent or end user can do neither. -/
theorem is_admin_role_characterization :
    (∀ u : User, u.isAdmin = true ↔
      (u.role = UserRole.ADMINISTRATOR ∨ u.role = UserRole.MANAGER)) ∧
    (∀ (rows : List Ticket) (users : List User) (env : Env)
        (ticketID userID : Nat) (t : Ticket) (u : User),
      findCurrent rows ticketID = some t → t.status = TicketStatus.OPEN →
      findUser users userID = some u → u.role = UserRole.MANAGER →
      (deleteTicket rows users env ticketID userID).1 = Except.ok ()) ∧
    (∀ (rows : List Ticket) (users : List User) (env : Env)
        (ticketID userID : Nat) (t : Ticket) (u : User),
      findCurrent rows ticketID = some t →
      findUser users userID = some u →
      (u.role = UserRole.SUPPORT_AGENT ∨ u.role = UserRole.END_USER) →
      (deleteTicket rows users env ticketID userID).1 =
        Except.error ServiceError.insufficientPermissions) ∧
    (∀ (rows : List Ticket) (users : List User) (env : Env)
        (ticketID target : Nat) (t : Ticket) (u : User),
      findCurrent rows ticketID = some t → t.escalatedAt = none →
      findUser users target = some u → u.role = UserRole.MANAGER →
      (escalateTicket rows users env ticketID target).1 = Except.ok ()) ∧
    (∀ (rows : List Ticket) (users : List User) (env : Env)
        (ticketID target : Nat) (t : Ticket) (u : User),
      findCurrent rows ticketID = some t → t.escalatedAt = none →
      findUser users target = some u →
      (u.role = UserRole.SUPPORT_AGENT ∨ u.role = UserRole.END_USER) →
      (escalateTicket rows users env ticketID target).1 =
        Except.error ServiceError.targetNotManagerOrAdmin) := by
  refine ⟨?_, ?_, ?_, ?_, ?_⟩
  · intro u
    cases hu : u.role <;> simp [User.isAdmin, hu]
  · intro rows users env ticketID userID t u hfind hstatus hfu hrole
    simp [deleteTicket, hfind, hfu, User.isAdmin, hrole, hstatus, tsArchive]
  · intro rows users env ticketID userID t u hfind hfu hrole
    rcases hrole with h | h <;> simp [deleteTicket, hfind, hfu, User.isAdmin, h]
  · intro rows users env ticketID target t u hfind hesc hfu hrole
    simp [escalateTicket, hfind, Ticket.isEscalated, hesc, hfu, User.isAdmin,
      hrole]
  · intro rows users env ticketID target t u hfind hesc hfu hrole
    rcases hrole with h | h <;>
      simp [escalateTicket, hfind, Ticket.isEscalated, hesc, hfu, User.isAdmin, h]

/-- C10 witness: concrete manager and support-agent users against a concrete
open, unescalated ticket. -/
theorem is_admin_role_characterization_witness :
    (wManagerUser.isAdmin = true ↔
      (wManagerUser.role = UserRole.ADMINISTRATOR ∨
        wManagerUser.role = UserRole.MANAGER)) ∧
    (deleteTicket [wTicket] [wManagerUser] (Env.mk 5 1) 0 50).1 = Except.ok () ∧
    (deleteTicket [wTicket] [wAgentUser] (Env.mk 5 1) 0 60).1 =
      Except.error ServiceError.insufficientPermissions ∧
    (escalateTicket [wTicket] [wManagerUser] (Env.mk 5 1) 0 50).1 =
      Except.ok () ∧
    (escalateTicket [wTicket] [wAgentUser] (Env.mk 5 1) 0 60).1 =
      Except.error ServiceError.targetNotManagerOrAdmin :=
  ⟨is_admin_role_characterization.1 wManagerUser,
    is_admin_role_characterization.2.1 [wTicket] [wManagerUser] (Env.mk 5 1) 0 50
      wTicket wManagerUser rfl rfl rfl rfl,
    is_admin_role_characterization.2.2.1 [wTicket] [wAgentUser] (Env.mk 5 1) 0 60
      wTicket wAgentUser rfl rfl (Or.inl rfl),
    is_admin_role_characterization.2.2.2.1 [wTicket] [wManagerUser] (Env.mk 5 1)
      0 50 wTicket wManagerUser rfl rfl rfl rfl,
    is_admin_role_characterization.2.2.2.2 [wTicket] [wAgentUser] (Env.mk 5 1)
      0 60 wTicket wAgentUser rfl rfl rfl (Or.inl rfl)⟩

/-- An expired version row of the sample logical ticket (expired at tick 3). -/
def wExpiredTicket : Ticket := { wTicket with expirationTime := some 3 }

/-- The successor current version row of the same logical ticket. -/
def wCurrentTicket : Ticket := { wTicket with id := 1, creationTime := 3 }

/-- A store holding one logical ticket as two version rows: one expired, one
current — exactly the state left behind by one expire-then-insert update. -/
def wVersionedRows : List Ticket := [wExpiredTicket, wCurrentTicket]

/-- First page of everything, no filter, default sort. -/
def wListAllQuery : TicketQuery :=
  { filter := none, sort := none, page := 1, pageSize := 10 }

/-- C1 evidence.  `List` and `GetStats` never filter on
`expiration_time IS NULL`: over a store whose only logical ticket has one
expired and one current version row, only one row is current, yet the status
counts, the total count and the list query all report both rows — the
expired version row contributes to every result, contradicting the
current-versions-only contract. -/
theorem stats_and_list_count_expired_versions :
    (wVersionedRows.filter (fun r => r.isCurrentVersion)).length = 1 ∧
    (getStats wVersionedRows 10).openTickets = 2 ∧
    (getStats wVersionedRows 10).totalTickets = 2 ∧
    (repoList wVersionedRows wListAllQuery 10).total = 2 ∧
    wExpiredTicket ∈ (repoList wVersionedRows wListAllQuery 10).tickets ∧
    wExpiredTicket.isCurrentVersion = false := by
  decide

/-- C2 evidence.  The spec says `AssignToAgent`, `UpdateStatus` and
`Escalate` run the expire-then-insert protocol, so a successful call should
grow the ticket's history by one.  In the code each is a direct in-place
column update: after a successful escalation of a one-row store the store
still holds exactly one row — the mutated original — and the history length
is unchanged; likewise for the status and assignment wrappers.  The generic
time-series `Update`, by contrast, does insert a second row on the same
store. -/
theorem escalate_and_wrappers_do_not_version :
    (escalateTicket [wTicket] [wManagerUser] (Env.mk 5 1) 0 50).1 =
      Except.ok () ∧
    (escalateTicket [wTicket] [wManagerUser] (Env.mk 5 1) 0 50).2.1 =
      [{ wTicket with escalatedTo := some 50, escalatedAt := some 5 }] ∧
    (getHistory
        (escalateTicket [wTicket] [wManagerUser] (Env.mk 5 1) 0 50).2.1 0).length
      = 1 ∧
    (getHistory [wTicket] 0).length = 1 ∧
    (repoUpdateStatus [wTicket] (Env.mk 5 1) 0 TicketStatus.IN_PROGRESS).1 =
      [{ wTicket with status := TicketStatus.IN_PROGRESS }] ∧
    repoAssignToAgent [wTicket] 0 60 =
      [{ wTicket with assignedAgentId := some 60 }] ∧
    ((tsUpdate [wTicket] (Env.mk 5 1) 0 (fun c => Except.ok c)).2.1).length = 2 :=
  ⟨rfl, rfl, rfl, rfl, rfl, rfl, rfl⟩

/-- C5 counterexample.  A successful update of a concrete one-row store: the
old version is expired at tick 6 while the new version's creation time is
tick 5 — `Clone` samples `time.Now()` before the protocol samples the
expiration instant, so the expired version's expiration time does NOT equal
the new version's creation time. -/
theorem version_timestamps_counterexample :
    (tsUpdate [wTicket] (Env.mk 5 1) 0 (fun c => Except.ok c)).1 =
      Except.ok (wTicket.clone 1 5) ∧
    (tsUpdate [wTicket] (Env.mk 5 1) 0 (fun c => Except.ok c)).2.1 =
      [{ wTicket with expirationTime := some 6 }, wTicket.clone 1 5] ∧
    (wTicket.clone 1 5).creationTime = 5 ∧
    ({ wTicket with expirationTime := some 6 }).expirationTime ≠
      some ((wTicket.clone 1 5).creationTime) :=
  ⟨rfl, rfl, rfl, by decide⟩

/-- C5 (amended).  For every successful update whose mutator leaves the
clone's creation time alone: the new version's creation time is at least the
previous current version's creation time, and the expired version's
expiration time is at least (sampled after, hence not necessarily equal to)
the new version's creation time. -/
theorem version_timestamps_monotone
    (rows : List Ticket) (env : Env) (id : Nat) (t : Ticket)
    (updates : Ticket → Except String Ticket) (v : Ticket)
    (hfind : findCurrent rows id = some t)
    (hclk : clockInvariant rows env)
    (hmut : updates (t.clone env.nextId env.clock) = Except.ok v)
    (hpreserve : v.creationTime = env.clock) :
    (tsUpdate rows env id updates).1 = Except.ok v ∧
    t.creationTime ≤ v.creationTime ∧
    { t with expirationTime := some (env.clock + 1) } ∈
      (tsUpdate rows env id updates).2.1 ∧
    v.creationTime ≤ env.clock + 1 := by
  refine ⟨?_, ?_, ?_, ?_⟩
  · simp [tsUpdate, hfind, Env.now, Env.freshId, hmut]
  · rw [hpreserve]
    exact hclk t (findCurrent_mem hfind)
  · simp only [tsUpdate, hfind, Env.now, Env.freshId, hmut]
    refine List.mem_append_left _ ?_
    have hm := List.mem_map_of_mem
      (fun r => if r.id == t.id then
        { t with expirationTime := some (env.clock + 1) } else r)
      (findCurrent_mem hfind)
    simpa using hm
  · rw [hpreserve]
    exact Nat.le_succ _

/-- C5 witness: the amended statement at the counterexample's concrete
input. -/
theorem version_timestamps_monotone_witness :
    (tsUpdate [wTicket] (Env.mk 5 1) 0 (fun c => Except.ok c)).1 =
      Except.ok (wTicket.clone 1 5) ∧
    wTicket.creationTime ≤ (wTicket.clone 1 5).creationTime ∧
    { wTicket with expirationTime := some 6 } ∈
      (tsUpdate [wTicket] (Env.mk 5 1) 0 (fun c => Except.ok c)).2.1 ∧
    (wTicket.clone 1 5).creationTime ≤ 6 :=
  version_timestamps_monotone [wTicket] (Env.mk 5 1) 0 wTicket
    (fun c => Except.ok c) (wTicket.clone 1 5) rfl
    (by intro r hr
        cases hr with
        | head => decide
        | tail a b => cases b)
    rfl rfl

end HelpChat
